import Mathlib

/-!
Shallow embedding of `evecs-db/shared_code/location_crud.py`.

The four handlers (`create_location`, `delete_location`, `get_location`,
`edit_location`) are modelled as pure functions over:
  * a JSON value type `Json` (request bodies and stored documents),
  * a store state `List Json` (the documents of the Locations container,
    in insertion order),
  * an abstract schema (the file `schemas/location.json` and the
    `jsonschema` library are external to the repository, so validation is
    an abstract boolean predicate together with the schema property-name
    set used on line 109 of the source),
  * a UUID supply `fresh : Nat → String` standing for the successive
    results of `str(uuid.uuid4())` in call order.

Python dynamic-typing behaviour that the source relies on is embedded
explicitly: `k in x`, `x[k]`, `x.get(k)`, `x.items()`, iteration and item
assignment are partial operations returning `Except PyErr`, raising
exactly where CPython raises (TypeError / KeyError / AttributeError /
ValueError); the handlers' top-level `try/except` maps any raise to the
500 response.  Truthiness (`if not location_id`, `if existing_docs`, ...)
follows Python.

Store mutations are not applied directly: each handler returns its
response together with the list of mutating container calls it issued
(`create_item` / `replace_item` / `delete_item`), and `applyEffects`
gives the resulting store, so that claims about "the store afterwards"
and "no mutating call" can be stated.
-/

namespace LocationCrud

/-- JSON values, as produced by `json.loads` on a request body or returned
by a Cosmos query.  Numbers are modelled as integers (no claim depends on
float behaviour).  Objects are association lists in insertion order;
Python dicts have unique keys, so lists with duplicate keys do not arise
from parsed request bodies or stored documents. -/
inductive Json where
  | null : Json
  | bool (b : Bool) : Json
  | num (n : Int) : Json
  | str (s : String) : Json
  | arr (xs : List Json) : Json
  | obj (kvs : List (String × Json)) : Json

abbrev JObj := List (String × Json)

mutual

def decJson : (a b : Json) → Decidable (a = b)
  | .null, .null => isTrue rfl
  | .bool a, .bool b =>
      match Bool.decEq a b with
      | isTrue h => isTrue (congrArg Json.bool h)
      | isFalse h => isFalse (fun he => h (Json.bool.inj he))
  | .num a, .num b =>
      match Int.decEq a b with
      | isTrue h => isTrue (congrArg Json.num h)
      | isFalse h => isFalse (fun he => h (Json.num.inj he))
  | .str a, .str b =>
      match String.decEq a b with
      | isTrue h => isTrue (congrArg Json.str h)
      | isFalse h => isFalse (fun he => h (Json.str.inj he))
  | .arr a, .arr b =>
      match decJsonList a b with
      | isTrue h => isTrue (congrArg Json.arr h)
      | isFalse h => isFalse (fun he => h (Json.arr.inj he))
  | .obj a, .obj b =>
      match decJsonObj a b with
      | isTrue h => isTrue (congrArg Json.obj h)
      | isFalse h => isFalse (fun he => h (Json.obj.inj he))
  | .null, .bool _ | .null, .num _ | .null, .str _ | .null, .arr _ | .null, .obj _
  | .bool _, .null | .bool _, .num _ | .bool _, .str _ | .bool _, .arr _ | .bool _, .obj _
  | .num _, .null | .num _, .bool _ | .num _, .str _ | .num _, .arr _ | .num _, .obj _
  | .str _, .null | .str _, .bool _ | .str _, .num _ | .str _, .arr _ | .str _, .obj _
  | .arr _, .null | .arr _, .bool _ | .arr _, .num _ | .arr _, .str _ | .arr _, .obj _
  | .obj _, .null | .obj _, .bool _ | .obj _, .num _ | .obj _, .str _ | .obj _, .arr _ =>
      isFalse (fun he => Json.noConfusion he)

def decJsonList : (a b : List Json) → Decidable (a = b)
  | [], [] => isTrue rfl
  | [], _ :: _ => isFalse (fun he => List.noConfusion he)
  | _ :: _, [] => isFalse (fun he => List.noConfusion he)
  | x :: xs, y :: ys =>
      match decJson x y with
      | isTrue h1 =>
          match decJsonList xs ys with
          | isTrue h2 => isTrue (by rw [h1, h2])
          | isFalse h2 => isFalse (fun he => h2 (List.cons.inj he).2)
      | isFalse h1 => isFalse (fun he => h1 (List.cons.inj he).1)

def decJsonObj : (a b : JObj) → Decidable (a = b)
  | [], [] => isTrue rfl
  | [], _ :: _ => isFalse (fun he => List.noConfusion he)
  | _ :: _, [] => isFalse (fun he => List.noConfusion he)
  | (k, v) :: xs, (l, w) :: ys =>
      match String.decEq k l with
      | isTrue hk =>
          match decJson v w with
          | isTrue hv =>
              match decJsonObj xs ys with
              | isTrue ht => isTrue (by rw [hk, hv, ht])
              | isFalse ht => isFalse (fun he => ht (List.cons.inj he).2)
          | isFalse hv => isFalse (fun he => hv (congrArg Prod.snd (List.cons.inj he).1))
      | isFalse hk => isFalse (fun he => hk (congrArg Prod.fst (List.cons.inj he).1))

end

instance : DecidableEq Json := decJson

/-- First-match lookup in an object's key/value list (Python dict lookup;
real dicts have unique keys, so first-match is exact on them). -/
def jlookup : JObj → String → Option Json
  | [], _ => none
  | (k, v) :: rest, key => if k = key then some v else jlookup rest key

/-- Python `key in d` for a dict `d`. -/
def jhasKey (kvs : JObj) (key : String) : Bool :=
  (jlookup kvs key).isSome

/-- Python `d[key] = v` on a dict: overwrite in place if the key exists
(keeping its position), else append. -/
def jsetKey : JObj → String → Json → JObj
  | [], key, v => [(key, v)]
  | (k, w) :: rest, key, v =>
      if k = key then (k, v) :: rest else (k, w) :: jsetKey rest key v

/-- Python truthiness of a JSON-decoded value. -/
def truthy : Json → Bool
  | .null => false
  | .bool b => b
  | .num n => decide (n ≠ 0)
  | .str s => decide (s ≠ "")
  | .arr [] => false
  | .arr (_ :: _) => true
  | .obj [] => false
  | .obj (_ :: _) => true

/-- The field of a stored document, as a Cosmos SQL path `c.f` resolves it:
present only when the document is an object containing the key. -/
def docField (d : Json) (f : String) : Option Json :=
  match d with
  | .obj kvs => jlookup kvs f
  | _ => none

/-- The Python exceptions the embedded operations can raise; all are
caught by each handler's top-level `except Exception`. -/
inductive PyErr where
  | typeError | keyError | valueError | attributeError
deriving DecidableEq

instance {ε α : Type} [DecidableEq ε] [DecidableEq α] : DecidableEq (Except ε α) := fun a b =>
  match a, b with
  | .ok x, .ok y =>
      match decEq x y with
      | isTrue h => isTrue (congrArg Except.ok h)
      | isFalse h => isFalse (fun he => h (Except.ok.inj he))
  | .error x, .error y =>
      match decEq x y with
      | isTrue h => isTrue (congrArg Except.error h)
      | isFalse h => isFalse (fun he => h (Except.error.inj he))
  | .ok _, .error _ => isFalse (fun he => Except.noConfusion he)
  | .error _, .ok _ => isFalse (fun he => Except.noConfusion he)

/-- `pat in s` for Python strings: substring containment. -/
def strContains (s pat : String) : Bool :=
  s.toList.tails.any (fun t => pat.toList.isPrefixOf t)

/-- Python `key in x` for a JSON-decoded `x` and a string `key`:
key membership for dicts, element equality for lists, substring test for
strings, TypeError otherwise. -/
def jmem (x : Json) (key : String) : Except PyErr Bool :=
  match x with
  | .obj kvs => .ok (jhasKey kvs key)
  | .arr xs => .ok (decide (Json.str key ∈ xs))
  | .str s => .ok (strContains s key)
  | _ => .error .typeError

/-- Python `x[key]` for a string `key`: dict lookup (KeyError when
absent); TypeError on lists, strings and scalars. -/
def jget (x : Json) (key : String) : Except PyErr Json :=
  match x with
  | .obj kvs =>
      match jlookup kvs key with
      | some v => .ok v
      | none => .error .keyError
  | _ => .error .typeError

/-- Python `x.get(key)` (dict method, defaulting to `None`);
AttributeError when `x` is not a dict. -/
def jdictGet (x : Json) (key : String) : Except PyErr Json :=
  match x with
  | .obj kvs => .ok ((jlookup kvs key).getD Json.null)
  | _ => .error .attributeError

/-- Python `for y in x`: the sequence of iterates — list elements, dict
keys, the characters of a string (as 1-character strings); TypeError on
scalars. -/
def jiter (x : Json) : Except PyErr (List Json) :=
  match x with
  | .arr xs => .ok xs
  | .obj kvs => .ok (kvs.map (fun kv => Json.str kv.1))
  | .str s => .ok (s.toList.map (fun c => Json.str c.toString))
  | _ => .error .typeError

/-- Python `x[key] = v` for a string `key`: dict item assignment;
TypeError otherwise. -/
def jsetItem (x : Json) (key : String) (v : Json) : Except PyErr Json :=
  match x with
  | .obj kvs => .ok (Json.obj (jsetKey kvs key v))
  | _ => .error .typeError

/-- Python `x.items()`; AttributeError when `x` is not a dict. -/
def jitems (x : Json) : Except PyErr JObj :=
  match x with
  | .obj kvs => .ok kvs
  | _ => .error .attributeError

/-- `str(v)` as used inside the handlers' f-strings.  Scalars render as
CPython renders them; the rendering of containers is abbreviated (no
claim inspects an interpolated container). -/
def pyStr : Json → String
  | .null => "None"
  | .bool true => "True"
  | .bool false => "False"
  | .num n => toString n
  | .str s => s
  | .arr _ => "[...]"
  | .obj _ => "\x7b...\x7d"

/-- `f"{missing}"` for the list of missing mandatory field names:
CPython repr of a list of strings. -/
def pyReprStrList (xs : List String) : String :=
  "[" ++ String.intercalate ", " (xs.map (fun s => "\x27" ++ s ++ "\x27")) ++ "]"

/-- Modelled from the spec: the repository's `schemas/location.json` and
the `jsonschema` validator are external to the source directory, so the
schema is abstract: a full-document validation predicate (`jsonschema.
validate` succeeds), the text of a validation failure, and the key set of
the schema's `properties` object (consulted by `create_location` when
copying additional body fields). -/
structure Schema where
  validate : Json → Bool
  validationError : Json → String
  properties : List String

/-- A handler's return value `{"status_code": ..., "body": ...}`. -/
structure Resp where
  status_code : Nat
  body : Json
deriving DecidableEq

/-- The mutating container-proxy calls a handler can issue. -/
inductive Effect where
  | createItem (doc : Json)
  | replaceItem (doc : Json)
  | deleteItem (itemId : Json) (partitionKey : Json)
deriving DecidableEq

/-- Effect of one container call on the stored document list.
`create_item` appends; `delete_item` removes the documents matching the
given internal `id` and partition key (at most one in a well-formed
container); `replace_item` substitutes the new document for the stored
one with the same `id` and partition key. -/
def applyEffect (store : List Json) : Effect → List Json
  | .createItem d => store ++ [d]
  | .deleteItem i pk =>
      store.filter (fun d => ¬ (docField d "id" = some i ∧ docField d "location_id" = some pk))
  | .replaceItem nd =>
      match docField nd "id", docField nd "location_id" with
      | some i, some pk =>
          store.map (fun d =>
            if docField d "id" = some i ∧ docField d "location_id" = some pk then nd else d)
      | _, _ => store

def applyEffects (store : List Json) (effs : List Effect) : List Json :=
  effs.foldl applyEffect store

/-- The Cosmos query `SELECT * FROM c WHERE c.<field> = @v`: the stored
documents whose `field` exists and equals `v`, in store order. -/
def queryByField (store : List Json) (field : String) (v : Json) : List Json :=
  store.filter (fun d => decide (docField d field = some v))

/-- The request object: HTTP method, query parameters, and the JSON body
(`none` when `req.get_json()` raises, i.e. no body / not valid JSON). -/
structure HttpReq where
  method : String
  params : List (String × String)
  jsonBody : Option Json

/-- `req.get_json()`: ValueError when the body is absent or not JSON. -/
def HttpReq.getJson (r : HttpReq) : Except PyErr Json :=
  match r.jsonBody with
  | some j => .ok j
  | none => .error .valueError

/-- `req.params.get(k)`. -/
def sparamsGet : List (String × String) → String → Option String
  | [], _ => none
  | (k, v) :: rest, key => if k = key then some v else sparamsGet rest key

def resp400 (msg : String) : Resp :=
  ⟨400, Json.obj [("error", Json.str msg)]⟩

def resp404 (msg : String) : Resp :=
  ⟨404, Json.obj [("error", Json.str msg)]⟩

/-- Python `isinstance(x, dict)`. -/
def isDict : Json → Bool
  | .obj _ => true
  | _ => false

/-- Lines 42-43 of create_location: the comprehension
`[f for f in required_fields if f not in body]` with
`required_fields = ["location_name", "rooms"]`. -/
def missingFields (body : Json) : Except PyErr (List String) := do
  let m1 ← jmem body "location_name"
  let m2 ← jmem body "rooms"
  pure ((if m1 then [] else ["location_name"]) ++ (if m2 then [] else ["rooms"]))

/-- Lines 50-55 of create_location: scan the rooms in order and report
whether some room fails `"room_name" not in room or "capacity" not in
room` (short-circuit, first failure wins). -/
def roomFieldMissing : List Json → Except PyErr Bool
  | [] => pure false
  | r :: rs => do
      let hasName ← jmem r "room_name"
      if ¬ hasName then pure true
      else do
        let hasCap ← jmem r "capacity"
        if ¬ hasCap then pure true else roomFieldMissing rs

/-- Lines 95-97 of create_location: `room["room_id"] = str(uuid.uuid4())`
for each room in order; `n` is the index of the next UUID drawn from the
supply. -/
def genRoomIds (fresh : Nat → String) : List Json → Nat → Except PyErr (List Json)
  | [], _ => pure []
  | r :: rs, n => do
      let r2 ← jsetItem r "room_id" (Json.str (fresh n))
      let rs2 ← genRoomIds fresh rs (n + 1)
      pure (r2 :: rs2)

/-- Lines 108-110 of create_location: fold the body's items in order,
adding `(key, val)` when `key not in new_doc and key in
location_schema["properties"]`; the membership test is against the
current (growing) document. -/
def addExtras (props : List String) : JObj → JObj → JObj
  | nd, [] => nd
  | nd, (k, v) :: rest =>
      addExtras props (if !(jhasKey nd k) && props.contains k then jsetKey nd k v else nd) rest

/-- Body of create_location inside the `try` (lines 39-120); a raised
exception is reported as `.error`. -/
def create_core (schema : Schema) (fresh : Nat → String) (store : List Json)
    (req : HttpReq) : Except PyErr (Resp × List Effect) := do
  let body ← req.getJson
  let missing ← missingFields body
  if missing ≠ [] then
    pure (resp400 ("Missing mandatory field(s): " ++ pyReprStrList missing), [])
  else do
    let roomsVal ← jget body "rooms"
    let roomList ← jiter roomsVal
    let bad ← roomFieldMissing roomList
    if bad then
      pure (resp400 "Missing mandatory field \x27room_name\x27 in rooms.", [])
    else do
      let lname ← jget body "location_name"
      if queryByField store "location_name" lname ≠ [] then
        pure (resp400 ("Location with name \x27" ++ pyStr lname ++ "\x27 already exists."), [])
      else if ¬ schema.validate body then
        pure (resp400 ("JSON schema validation error: " ++ schema.validationError body), [])
      else do
        let rooms2 ← genRoomIds fresh roomList 1
        let ev ← jget body "events_ids"
        let bodyItems ← jitems body
        let newDoc := Json.obj (addExtras schema.properties
          [("id", Json.str (fresh (1 + roomList.length))),
           ("location_id", Json.str (fresh 0)),
           ("location_name", lname),
           ("events_ids", ev),
           ("rooms", Json.arr rooms2)] bodyItems)
        pure (⟨202, Json.obj [("message", Json.str "Location created successfully."),
                              ("location_id", Json.str (fresh 0))]⟩,
              [Effect.createItem newDoc])

/-- create_location (lines 22-128): the UUID supply `fresh` stands for
the successive `str(uuid.uuid4())` results — `fresh 0` is the new
`location_id` (line 92), `fresh 1 .. fresh n` the per-room `room_id`s
(line 97), `fresh (n+1)` the internal `id` (line 101).  Returns the
response together with the mutating container calls issued. -/
def create_location (req : HttpReq) (store : List Json) (schema : Schema)
    (fresh : Nat → String) : Resp × List Effect :=
  match create_core schema fresh store req with
  | .ok r => r
  | .error _ => (⟨500, Json.obj [("error", Json.str "Internal Server Error")]⟩, [])

/-- Body of delete_location inside the `try` (lines 137-176). -/
def delete_core (store : List Json) (req : HttpReq) : Except PyErr (Resp × List Effect) := do
  let lid ← (if req.method = "POST" then do
      let body ← req.getJson
      jdictGet body "location_id"
    else
      pure (match sparamsGet req.params "location_id" with
            | some s => Json.str s
            | none => Json.null))
  if ¬ truthy lid then
    pure (resp400 "Missing \x27location_id\x27 parameter", [])
  else
    match queryByField store "location_id" lid with
    | [] => pure (resp404 ("Location \x27" ++ pyStr lid ++ "\x27 not found"), [])
    | d :: _ => do
        let itemId ← jget d "id"
        let pk ← jget d "location_id"
        pure (⟨200, Json.obj [("message",
                Json.str ("Location \x27" ++ pyStr lid ++ "\x27 deleted successfully."))]⟩,
              [Effect.deleteItem itemId pk])

/-- delete_location (lines 131-184). -/
def delete_location (req : HttpReq) (store : List Json) : Resp × List Effect :=
  match delete_core store req with
  | .ok r => r
  | .error _ => (⟨500, Json.obj [("error", Json.str "Internal Server Error")]⟩, [])

/-- Body of get_location inside the `try` (lines 198-237).  The source
calls `req.get_json()` twice on the POST path (line 203); both calls
return the same value, so it is drawn once here. -/
def get_core (store : List Json) (req : HttpReq) : Except PyErr (Resp × List Effect) := do
  let lid ← (if req.method = "GET" then
      pure (if req.params ≠ [] then
              match sparamsGet req.params "location_id" with
              | some s => Json.str s
              | none => Json.null
            else Json.null)
    else do
      let b ← req.getJson
      let body := if truthy b then b else Json.obj []
      jdictGet body "location_id")
  if truthy lid then
    match queryByField store "location_id" lid with
    | [] => pure (resp404 ("Location \x27" ++ pyStr lid ++ "\x27 not found."), [])
    | d :: _ => pure (⟨200, Json.obj [("location", d)]⟩, [])
  else
    pure (⟨200, Json.obj [("locations", Json.arr store)]⟩, [])

/-- get_location (lines 187-244); the `location_schema` parameter of the
source is unused by its body. -/
def get_location (req : HttpReq) (store : List Json) : Resp × List Effect :=
  match get_core store req with
  | .ok r => r
  | .error _ => (⟨500, Json.obj [("error", Json.str "Internal server error")]⟩, [])

/-- Line 291 of edit_location. -/
def updatable_keys : List String :=
  ["location_id", "location_name", "events_ids", "rooms"]

/-- Lines 294-297 of edit_location: copy each updatable key present in
the body onto the document, tracking whether any was copied. -/
def mergeUpdatable (body : Json) : Json → List String → Bool → Except PyErr (Json × Bool)
  | doc, [], upd => pure (doc, upd)
  | doc, k :: ks, upd => do
      let m ← jmem body k
      if m then do
        let v ← jget body k
        let doc2 ← jsetItem doc k v
        mergeUpdatable body doc2 ks true
      else
        mergeUpdatable body doc ks upd

/-- Body of edit_location inside the `try` (lines 256-323). -/
def edit_core (schema : Schema) (store : List Json) (req : HttpReq) :
    Except PyErr (Resp × List Effect) := do
  let body ← req.getJson
  if ¬ truthy body ∨ ¬ isDict body then
    pure (resp400 "Request body must be a valid JSON object.", [])
  else do
    let lid ← jdictGet body "location_id"
    if ¬ truthy lid then
      pure (resp400 "Missing \x27location_id\x27 field to identify the document to edit.", [])
    else
      match queryByField store "location_id" lid with
      | [] => pure (resp404 ("Location \x27" ++ pyStr lid ++ "\x27 not found, cannot edit."), [])
      | d :: _ => do
          let md ← mergeUpdatable body d updatable_keys false
          if ¬ md.2 then
            pure (resp400 "No updatable fields specified in request body.", [])
          else if ¬ schema.validate md.1 then
            pure (resp400 ("JSON schema validation error: " ++ schema.validationError md.1), [])
          else
            pure (⟨200, Json.obj [("message",
                    Json.str ("Location \x27" ++ pyStr lid ++ "\x27 updated successfully.")),
                    ("location", md.1)]⟩,
                  [Effect.replaceItem md.1])

/-- edit_location (lines 247-331). -/
def edit_location (req : HttpReq) (store : List Json) (schema : Schema) : Resp × List Effect :=
  match edit_core schema store req with
  | .ok r => r
  | .error _ => (⟨500, Json.obj [("error", Json.str "Internal Server Error")]⟩, [])

/-- Values on which Python `"field" in x` does not raise (dicts, lists,
strings). -/
def memTestable : Json → Bool
  | .obj _ => true
  | .arr _ => true
  | .str _ => true
  | _ => false

/-- A concrete schema accepting every document, for witness runs. -/
def cSchema : Schema := ⟨fun _ => true, fun _ => "invalid", []⟩

/-- A concrete injective UUID supply for witness runs. -/
def cFresh : Nat → String := fun n => String.mk (List.replicate (n + 1) 'u')

/-- A concrete stored document for witness runs. -/
def cDocA : Json :=
  Json.obj [("id", .str "i9"), ("location_id", .str "L9"), ("location_name", .str "Hall A")]

/-- A concrete one-document store for witness runs. -/
def cStoreA : List Json := [cDocA]

/-! Helper lemmas about the embedded Python dictionary operations. -/

theorem ebind_ok {α β : Type} (a : α) (f : α → Except PyErr β) :
    (Except.ok a >>= f) = f a := rfl

theorem ebind_err {α β : Type} (e : PyErr) (f : α → Except PyErr β) :
    ((Except.error e : Except PyErr α) >>= f) = Except.error e := rfl

theorem epure_ok {α : Type} (a : α) : (pure a : Except PyErr α) = Except.ok a := rfl

theorem jlookup_jsetKey_self (kvs : JObj) (k : String) (v : Json) :
    jlookup (jsetKey kvs k v) k = some v := by
  induction kvs with
  | nil => simp [jsetKey, jlookup]
  | cons kv rest ih =>
      obtain ⟨a, b⟩ := kv
      by_cases h : a = k
      · simp [jsetKey, h, jlookup]
      · simp [jsetKey, h, jlookup, ih]

theorem jlookup_jsetKey_ne (kvs : JObj) (k k' : String) (v : Json) (h : k' ≠ k) :
    jlookup (jsetKey kvs k v) k' = jlookup kvs k' := by
  induction kvs with
  | nil =>
      have h2 : ¬ k = k' := fun hc => h hc.symm
      simp [jsetKey, jlookup, h2]
  | cons kv rest ih =>
      obtain ⟨a, b⟩ := kv
      by_cases ha : a = k
      · subst ha
        simp only [jsetKey, if_pos rfl, jlookup]
        rw [if_neg (fun hc => h hc.symm), if_neg (fun hc => h hc.symm)]
      · simp only [jsetKey, if_neg ha, jlookup]
        by_cases hak : a = k'
        · simp [hak]
        · simp [hak, ih]

theorem jhasKey_jsetKey (kvs : JObj) (k k' : String) (v : Json) :
    jhasKey (jsetKey kvs k v) k' = if k' = k then true else jhasKey kvs k' := by
  by_cases h : k' = k
  · simp [jhasKey, h, jlookup_jsetKey_self]
  · simp [jhasKey, h, jlookup_jsetKey_ne kvs k k' v h]

theorem queryByField_mem {store : List Json} {f : String} {v d : Json}
    (h : d ∈ queryByField store f v) : d ∈ store ∧ docField d f = some v := by
  have := List.mem_filter.mp h
  simpa using this

theorem queryByField_ne_nil {store : List Json} {f : String} {v d : Json}
    (hd : d ∈ store) (hf : docField d f = some v) : queryByField store f v ≠ [] := by
  apply List.ne_nil_of_mem (a := d)
  exact List.mem_filter.mpr ⟨hd, by simp [hf]⟩

theorem queryByField_eq_nil {store : List Json} {f : String} {v : Json}
    (h : queryByField store f v = []) :
    ∀ d ∈ store, docField d f ≠ some v := by
  intro d hd hf
  exact queryByField_ne_nil hd hf h

theorem queryByField_singleton {store : List Json} {f : String} {v d0 : Json}
    (h : queryByField store f v = [d0]) :
    ∀ d ∈ store, docField d f = some v → d = d0 := by
  intro d hd hf
  have : d ∈ queryByField store f v := List.mem_filter.mpr ⟨hd, by simp [hf]⟩
  rw [h] at this
  simpa using this

theorem docField_obj_of_some {d : Json} {f : String} {v : Json}
    (h : docField d f = some v) : ∃ kvs, d = Json.obj kvs ∧ jlookup kvs f = some v := by
  cases d <;> simp [docField] at h ⊢
  exact h

theorem isDict_obj {r : Json} (h : isDict r = true) : ∃ kvs, r = Json.obj kvs := by
  cases r
  case obj kvs => exact ⟨kvs, rfl⟩
  all_goals simp [isDict] at h

theorem jmem_ok_of_memTestable {r : Json} (h : memTestable r = true) (key : String) :
    ∃ b, jmem r key = .ok b := by
  cases r
  case obj kvs => exact ⟨_, rfl⟩
  case arr xs => exact ⟨_, rfl⟩
  case str s => exact ⟨_, rfl⟩
  all_goals simp [memTestable] at h

theorem roomFieldMissing_ok_of_memTestable :
    ∀ (rl : List Json), (∀ r ∈ rl, memTestable r = true) →
    ∃ b, roomFieldMissing rl = .ok b := by
  intro rl
  induction rl with
  | nil => intro _; exact ⟨false, rfl⟩
  | cons r rs ih =>
      intro h
      obtain ⟨b1, hb1⟩ := jmem_ok_of_memTestable (h r (List.mem_cons_self r rs)) "room_name"
      cases b1 with
      | false => exact ⟨true, by simp [roomFieldMissing, hb1, epure_ok, ebind_ok, epure_ok]⟩
      | true =>
          obtain ⟨b2, hb2⟩ := jmem_ok_of_memTestable (h r (List.mem_cons_self r rs)) "capacity"
          cases b2 with
          | false => exact ⟨true, by simp [roomFieldMissing, hb1, hb2, epure_ok, ebind_ok, epure_ok]⟩
          | true =>
              obtain ⟨b, hb⟩ := ih (fun x hx => h x (List.mem_cons_of_mem r hx))
              exact ⟨b, by simp [roomFieldMissing, hb1, hb2, epure_ok, ebind_ok, hb]⟩

theorem roomFieldMissing_false :
    ∀ (rl : List Json),
    (∀ r ∈ rl, jmem r "room_name" = .ok true ∧ jmem r "capacity" = .ok true) →
    roomFieldMissing rl = .ok false := by
  intro rl
  induction rl with
  | nil => intro _; rfl
  | cons r rs ih =>
      intro h
      obtain ⟨h1, h2⟩ := h r (List.mem_cons_self r rs)
      have ihr := ih (fun x hx => h x (List.mem_cons_of_mem r hx))
      simp [roomFieldMissing, h1, h2, epure_ok, ebind_ok, ihr]

theorem roomFieldMissing_true :
    ∀ (rl : List Json), (∀ r ∈ rl, memTestable r = true) →
    (∀ r ∈ rl, jmem r "room_name" = .ok true) →
    (∃ r ∈ rl, jmem r "capacity" = .ok false) →
    roomFieldMissing rl = .ok true := by
  intro rl
  induction rl with
  | nil => intro _ _ h; simp at h
  | cons r rs ih =>
      intro hm hn hc
      have h1 := hn r (List.mem_cons_self r rs)
      obtain ⟨b2, hb2⟩ := jmem_ok_of_memTestable (hm r (List.mem_cons_self r rs)) "capacity"
      cases b2 with
      | false => simp [roomFieldMissing, h1, hb2, epure_ok, ebind_ok, epure_ok]
      | true =>
          have hcs : ∃ x ∈ rs, jmem x "capacity" = .ok false := by
            obtain ⟨x, hx, hxf⟩ := hc
            rcases List.mem_cons.mp hx with hxr | hxs
            · subst hxr; rw [hxf] at hb2; exact absurd hb2 (by simp)
            · exact ⟨x, hxs, hxf⟩
          have ihr := ih (fun x hx => hm x (List.mem_cons_of_mem r hx))
            (fun x hx => hn x (List.mem_cons_of_mem r hx)) hcs
          simp [roomFieldMissing, h1, hb2, epure_ok, ebind_ok, ihr]

theorem genRoomIds_ok (fresh : Nat → String) :
    ∀ (rl : List Json) (n : Nat), (∀ r ∈ rl, isDict r = true) →
    ∃ rooms2, genRoomIds fresh rl n = .ok rooms2 ∧ rooms2.length = rl.length ∧
      ∀ (i : Nat) (hi : i < rooms2.length),
        docField rooms2[i] "room_id" = some (.str (fresh (n + i))) := by
  intro rl
  induction rl with
  | nil => intro n _; exact ⟨[], rfl, rfl, by intro i hi; simp at hi⟩
  | cons r rs ih =>
      intro n h
      obtain ⟨rkvs, rfl⟩ := isDict_obj (h r (List.mem_cons_self r rs))
      obtain ⟨rooms2, hrun, hlen, hchar⟩ := ih (n + 1) (fun x hx => h x (List.mem_cons_of_mem _ hx))
      refine ⟨Json.obj (jsetKey rkvs "room_id" (.str (fresh n))) :: rooms2, ?_, by simp [hlen], ?_⟩
      · simp [genRoomIds, jsetItem, epure_ok, ebind_ok, hrun]
      · intro i hi
        cases i with
        | zero => simp [docField, jlookup_jsetKey_self]
        | succ j =>
            have hj : j < rooms2.length := by simpa using hi
            have hc := hchar j hj
            have harith : n + 1 + j = n + (j + 1) := by omega
            rw [harith] at hc
            simpa using hc

theorem addExtras_preserves (props : List String) :
    ∀ (items nd : JObj) (k : String), jhasKey nd k = true →
    jlookup (addExtras props nd items) k = jlookup nd k := by
  intro items
  induction items with
  | nil => intro nd k _; rfl
  | cons kv rest ih =>
      intro nd k h
      obtain ⟨k1, v1⟩ := kv
      by_cases hc : (!(jhasKey nd k1) && props.contains k1) = true
      · have hne : k ≠ k1 := by
          intro he; subst he
          simp [h] at hc
        have hk2 : jhasKey (jsetKey nd k1 v1) k = true := by
          rw [jhasKey_jsetKey]
          simp [hne, h]
        simp only [addExtras, if_pos hc]
        rw [ih (jsetKey nd k1 v1) k hk2, jlookup_jsetKey_ne nd k1 k v1 hne]
      · simp only [addExtras, if_neg hc]
        exact ih nd k h

theorem mergeUpdatable_ok (bkvs : JObj) :
    ∀ (keys : List String) (dkvs : JObj) (upd : Bool),
    ∃ mkvs, mergeUpdatable (.obj bkvs) (.obj dkvs) keys upd =
        .ok (Json.obj mkvs, (upd || keys.any (fun k => jhasKey bkvs k))) ∧
      ∀ x, jlookup mkvs x =
        if x ∈ keys ∧ jhasKey bkvs x = true then jlookup bkvs x else jlookup dkvs x := by
  intro keys
  induction keys with
  | nil =>
      intro dkvs upd
      refine ⟨dkvs, by simp [mergeUpdatable, epure_ok], ?_⟩
      intro x; simp
  | cons k ks ih =>
      intro dkvs upd
      cases hk : jhasKey bkvs k with
      | false =>
          obtain ⟨mkvs, hrun, hchar⟩ := ih dkvs upd
          refine ⟨mkvs, ?_, ?_⟩
          · simp [mergeUpdatable, jmem, hk, epure_ok, ebind_ok, hrun]
          · intro x
            rw [hchar x]
            by_cases hx : x = k
            · subst hx; simp [hk]
            · simp [hx]
      | true =>
          have hv : ∃ v, jlookup bkvs k = some v := by
            rw [jhasKey] at hk
            exact Option.isSome_iff_exists.mp hk
          obtain ⟨v, hv⟩ := hv
          obtain ⟨mkvs, hrun, hchar⟩ := ih (jsetKey dkvs k v) true
          refine ⟨mkvs, ?_, ?_⟩
          · simp [mergeUpdatable, jmem, hk, jget, hv, jsetItem, epure_ok, ebind_ok, hrun]
          · intro x
            rw [hchar x]
            by_cases hx : x = k
            · subst hx
              by_cases hks : x ∈ ks
              · simp [hks, hk]
              · simp [hks, hk, jlookup_jsetKey_self, hv]
            · rw [jlookup_jsetKey_ne dkvs k x v hx]
              simp [hx]

theorem cFresh_injective : Function.Injective cFresh := by
  intro m n h
  have h2 : List.replicate (m + 1) 'u' = List.replicate (n + 1) 'u' :=
    congrArg String.data h
  have h3 := congrArg List.length h2
  simp at h3
  omega

/-! Claim theorems. -/

/-- C10: a supplied `location_id` equal to the empty string is falsy, so
it is treated as absent rather than as a lookup key: `get_location`
returns 200 with the full collection under `locations` (never 404), on
both the GET (query parameter) and POST (body field) transports, and
`delete_location` returns 400 (missing parameter) rather than 404. -/
theorem c10_empty_string_id (store : List Json) (params : List (String × String)) (bkvs : JObj) :
    (sparamsGet params "location_id" = some "" →
      get_location ⟨"GET", params, none⟩ store =
        (⟨200, Json.obj [("locations", Json.arr store)]⟩, [])) ∧
    (jlookup bkvs "location_id" = some (.str "") →
      get_location ⟨"POST", [], some (.obj bkvs)⟩ store =
        (⟨200, Json.obj [("locations", Json.arr store)]⟩, [])) ∧
    (sparamsGet params "location_id" = some "" →
      delete_location ⟨"GET", params, none⟩ store =
        (resp400 "Missing \x27location_id\x27 parameter", [])) ∧
    (jlookup bkvs "location_id" = some (.str "") →
      delete_location ⟨"POST", [], some (.obj bkvs)⟩ store =
        (resp400 "Missing \x27location_id\x27 parameter", [])) := by
  refine ⟨?_, ?_, ?_, ?_⟩
  · intro h
    have hp : params ≠ [] := by
      intro he; rw [he] at h; simp [sparamsGet] at h
    simp [get_location, get_core, hp, h, ebind_ok, epure_ok, truthy, HttpReq.getJson]
  · intro h
    cases bkvs with
    | nil => simp [jlookup] at h
    | cons kv rest =>
        simp [get_location, get_core, truthy, h, ebind_ok, epure_ok, HttpReq.getJson, jdictGet]
  · intro h
    simp [delete_location, delete_core, h, ebind_ok, epure_ok, truthy, HttpReq.getJson]
  · intro h
    simp [delete_location, delete_core, h, ebind_ok, epure_ok, truthy, HttpReq.getJson, jdictGet]

/-- Witness for C10 at a concrete store and requests. -/
theorem c10_witness :
    get_location ⟨"GET", [("location_id", "")], none⟩ cStoreA =
      (⟨200, Json.obj [("locations", Json.arr cStoreA)]⟩, []) ∧
    get_location ⟨"POST", [], some (.obj [("location_id", .str "")])⟩ cStoreA =
      (⟨200, Json.obj [("locations", Json.arr cStoreA)]⟩, []) ∧
    delete_location ⟨"GET", [("location_id", "")], none⟩ cStoreA =
      (resp400 "Missing \x27location_id\x27 parameter", []) ∧
    delete_location ⟨"POST", [], some (.obj [("location_id", .str "")])⟩ cStoreA =
      (resp400 "Missing \x27location_id\x27 parameter", []) := by
  obtain ⟨h1, h2, h3, h4⟩ :=
    c10_empty_string_id cStoreA [("location_id", "")] [("location_id", .str "")]
  exact ⟨h1 rfl, h2 rfl, h3 rfl, h4 rfl⟩

/-- C9: the mandatory-field check of create_location requires only
`location_name` and `rooms` (line 42), but the stored-document
construction reads `body["events_ids"]` unconditionally (line 104); so a
Create body lacking `events_ids` that passes the room check, the
uniqueness check and schema validation raises KeyError (or TypeError on
the room-id assignment first), is caught by the handler, and yields 500
with no create call — never a 400 naming `events_ids`. -/
theorem c9_missing_events_ids (store : List Json) (schema : Schema) (fresh : Nat → String)
    (bkvs : JObj) (name roomsVal : Json) (rl : List Json)
    (h1 : jlookup bkvs "location_name" = some name)
    (h2 : jlookup bkvs "rooms" = some roomsVal)
    (h3 : jiter roomsVal = .ok rl)
    (h4 : roomFieldMissing rl = .ok false)
    (h5 : jlookup bkvs "events_ids" = none)
    (h6 : queryByField store "location_name" name = [])
    (h7 : schema.validate (.obj bkvs) = true) :
    create_location ⟨"POST", [], some (.obj bkvs)⟩ store schema fresh =
      (⟨500, Json.obj [("error", Json.str "Internal Server Error")]⟩, []) := by
  simp only [create_location, create_core, missingFields, HttpReq.getJson, jmem, jhasKey,
    h1, h2, h3, h4, h5, h6, h7, ebind_ok, epure_ok, Option.isSome_some, jget]
  cases hg : genRoomIds fresh rl 1 with
  | error e => simp [hg, ebind_ok, ebind_err, epure_ok]
  | ok rooms2 => simp [hg, ebind_ok, ebind_err, epure_ok, jget, h5]

theorem resp400_error (m : String) :
    docField (resp400 m).body "error" = some (.str m) := by
  simp [resp400, docField, jlookup]

/-- Counterexample to C6 as stated: an Edit body that is an object
containing none of the updatable keys yields 400 with the
missing-location_id message, not a "no updatable fields" error (that
message exists in the source but its branch is unreachable, since
reaching the merge loop requires a truthy `location_id` in the body). -/
theorem c6_counterexample :
    edit_location ⟨"POST", [], some (.obj [("foo", .num 1)])⟩ cStoreA cSchema =
      (resp400 "Missing \x27location_id\x27 field to identify the document to edit.", []) ∧
    strContains "Missing \x27location_id\x27 field to identify the document to edit."
      "updatable" = false ∧
    strContains "No updatable fields specified in request body." "updatable" = true := by
  exact ⟨by decide, by decide, by decide⟩

/-- C6 amended: for every Edit request whose body is a JSON object
containing none of the keys location_id / location_name / events_ids /
rooms, edit_location returns 400 — with the missing-location_id error
(for the empty object, the invalid-body error) rather than the
unreachable "no updatable fields" error — and issues no store call. -/
theorem c6_amended (store : List Json) (schema : Schema) (bkvs : JObj)
    (h1 : jlookup bkvs "location_id" = none)
    (h2 : jlookup bkvs "location_name" = none)
    (h3 : jlookup bkvs "events_ids" = none)
    (h4 : jlookup bkvs "rooms" = none) :
    (bkvs = [] →
      edit_location ⟨"POST", [], some (.obj bkvs)⟩ store schema =
        (resp400 "Request body must be a valid JSON object.", [])) ∧
    (bkvs ≠ [] →
      edit_location ⟨"POST", [], some (.obj bkvs)⟩ store schema =
        (resp400 "Missing \x27location_id\x27 field to identify the document to edit.", [])) := by
  constructor
  · intro he; subst he
    simp [edit_location, edit_core, HttpReq.getJson, truthy, ebind_ok, epure_ok]
  · intro hne
    cases bkvs with
    | nil => exact absurd rfl hne
    | cons kv rest =>
        simp [edit_location, edit_core, HttpReq.getJson, truthy, isDict, jdictGet, h1,
          ebind_ok, epure_ok]

/-- Witness for C6 (amended) at a concrete body and store. -/
theorem c6_witness :
    edit_location ⟨"POST", [], some (.obj [("foo", .num 1)])⟩ [] cSchema =
      (resp400 "Missing \x27location_id\x27 field to identify the document to edit.", []) :=
  (c6_amended [] cSchema [("foo", .num 1)] rfl rfl rfl rfl).2 (by decide)

/-- Counterexample to C3 as stated: a Create whose rooms entry lacks
`capacity` (and has `room_name`) yields 400, but the error message is
the fixed string naming room_name — it does not name the missing
capacity field. -/
theorem c3_counterexample :
    (create_location ⟨"POST", [], some (.obj [("location_name", .str "X"),
        ("rooms", .arr [.obj [("room_name", .str "R1")]])])⟩ [] cSchema cFresh).1 =
      resp400 "Missing mandatory field \x27room_name\x27 in rooms." ∧
    strContains "Missing mandatory field \x27room_name\x27 in rooms." "capacity" = false := by
  exact ⟨by decide, by decide⟩

/-- C3 amended: a Create body with `location_name` and a rooms array
whose entries all carry `room_name` but some entry lacks `capacity`
yields 400 with the fixed message naming room_name (which does not name
capacity), and no store call. -/
theorem c3_amended (store : List Json) (schema : Schema) (fresh : Nat → String)
    (bkvs : JObj) (name : Json) (rl : List Json)
    (h1 : jlookup bkvs "location_name" = some name)
    (h2 : jlookup bkvs "rooms" = some (.arr rl))
    (h3 : ∀ r ∈ rl, memTestable r = true)
    (h4 : ∀ r ∈ rl, jmem r "room_name" = .ok true)
    (h5 : ∃ r ∈ rl, jmem r "capacity" = .ok false) :
    create_location ⟨"POST", [], some (.obj bkvs)⟩ store schema fresh =
      (resp400 "Missing mandatory field \x27room_name\x27 in rooms.", []) := by
  have hroom := roomFieldMissing_true rl h3 h4 h5
  simp [create_location, create_core, missingFields, HttpReq.getJson, jmem, jhasKey,
    h1, h2, jget, jiter, hroom, ebind_ok, epure_ok]

/-- Witness for C3 (amended) at a concrete body. -/
theorem c3_witness :
    create_location ⟨"POST", [], some (.obj [("location_name", .str "X"),
        ("rooms", .arr [.obj [("room_name", .str "R1")]])])⟩ cStoreA cSchema cFresh =
      (resp400 "Missing mandatory field \x27room_name\x27 in rooms.", []) :=
  c3_amended cStoreA cSchema cFresh _ _ [.obj [("room_name", .str "R1")]]
    rfl rfl (by decide) (by decide) (by decide)

/-- Counterexample to C1 as stated: a Create body whose location_name
matches a stored document but whose `rooms` value is a number raises
TypeError on iteration before the duplicate check, so the handler
returns 500, not 400. -/
theorem c1_counterexample :
    docField cDocA "location_name" = some (.str "Hall A") ∧
    jlookup [("location_name", Json.str "Hall A"), ("rooms", Json.num 0)] "location_name" =
      some (.str "Hall A") ∧
    (create_location ⟨"POST", [], some (.obj [("location_name", .str "Hall A"),
        ("rooms", .num 0)])⟩ cStoreA cSchema cFresh).1.status_code = 500 := by
  exact ⟨by decide, by decide, by decide⟩

/-- C1 amended: for every store state and Create request whose body is
an object whose location_name equals the location_name of some stored
document, provided the rooms value (when present) is iterable with
membership-testable items (for instance an array of objects),
create_location returns 400 with an error string in the body and issues
no create/replace/delete call, regardless of any other fields. -/
theorem c1_amended (store : List Json) (schema : Schema) (fresh : Nat → String)
    (bkvs : JObj) (name : Json) (d : Json)
    (h1 : jlookup bkvs "location_name" = some name)
    (hd : d ∈ store) (hdn : docField d "location_name" = some name)
    (hrooms : ∀ rv, jlookup bkvs "rooms" = some rv →
      ∃ rl, jiter rv = .ok rl ∧ ∀ r ∈ rl, memTestable r = true) :
    (create_location ⟨"POST", [], some (.obj bkvs)⟩ store schema fresh).1.status_code = 400 ∧
    (∃ msg, docField (create_location ⟨"POST", [], some (.obj bkvs)⟩ store schema fresh).1.body
        "error" = some (.str msg)) ∧
    (create_location ⟨"POST", [], some (.obj bkvs)⟩ store schema fresh).2 = [] := by
  have main : ∃ m, create_location ⟨"POST", [], some (.obj bkvs)⟩ store schema fresh =
      (resp400 m, []) := by
    cases hk : jlookup bkvs "rooms" with
    | none =>
        exact ⟨"Missing mandatory field(s): " ++ pyReprStrList ["rooms"],
          by simp [create_location, create_core, missingFields, HttpReq.getJson, jmem,
            jhasKey, h1, hk, ebind_ok, epure_ok]⟩
    | some rv =>
        obtain ⟨rl, hiter, hmt⟩ := hrooms rv hk
        obtain ⟨b, hb⟩ := roomFieldMissing_ok_of_memTestable rl hmt
        have hne : queryByField store "location_name" name ≠ [] := queryByField_ne_nil hd hdn
        cases b with
        | true =>
            exact ⟨"Missing mandatory field \x27room_name\x27 in rooms.",
              by simp [create_location, create_core, missingFields, HttpReq.getJson, jmem,
                jhasKey, h1, hk, jget, hiter, hb, ebind_ok, epure_ok]⟩
        | false =>
            exact ⟨"Location with name \x27" ++ pyStr name ++ "\x27 already exists.",
              by simp [create_location, create_core, missingFields, HttpReq.getJson, jmem,
                jhasKey, h1, hk, jget, hiter, hb, hne, ebind_ok, epure_ok]⟩
  obtain ⟨m, hm⟩ := main
  rw [hm]
  exact ⟨rfl, ⟨m, resp400_error m⟩, rfl⟩

/-- Witness for C1 (amended) at a concrete store and body. -/
theorem c1_witness :
    (create_location ⟨"POST", [], some (.obj [("location_name", .str "Hall A"),
        ("rooms", .arr [])])⟩ cStoreA cSchema cFresh).1.status_code = 400 ∧
    (∃ msg, docField (create_location ⟨"POST", [], some (.obj [("location_name", .str "Hall A"),
        ("rooms", .arr [])])⟩ cStoreA cSchema cFresh).1.body "error" = some (.str msg)) ∧
    (create_location ⟨"POST", [], some (.obj [("location_name", .str "Hall A"),
        ("rooms", .arr [])])⟩ cStoreA cSchema cFresh).2 = [] := by
  refine c1_amended cStoreA cSchema cFresh _ (.str "Hall A") cDocA rfl (by decide) rfl ?_
  intro rv h
  simp [jlookup] at h
  subst h
  exact ⟨[], rfl, by simp⟩

theorem jget_of_docField {d : Json} {f : String} {v : Json}
    (h : docField d f = some v) : jget d f = .ok v := by
  obtain ⟨kvs, rfl, hl⟩ := docField_obj_of_some h
  simp [jget, hl]

theorem delete_notfound (store : List Json) (s : String) (hs : s ≠ "")
    (hq : queryByField store "location_id" (.str s) = []) :
    delete_location ⟨"GET", [("location_id", s)], none⟩ store =
      (resp404 ("Location \x27" ++ s ++ "\x27 not found"), []) := by
  simp [delete_location, delete_core, sparamsGet, truthy, hs, hq, pyStr,
    ebind_ok, epure_ok]

theorem delete_found (store : List Json) (s : String) (d0 : Json) (rest : List Json)
    (iid : Json) (hs : s ≠ "")
    (hq : queryByField store "location_id" (.str s) = d0 :: rest)
    (hiid : docField d0 "id" = some iid) :
    delete_location ⟨"GET", [("location_id", s)], none⟩ store =
      (⟨200, Json.obj [("message",
          Json.str ("Location \x27" ++ s ++ "\x27 deleted successfully."))]⟩,
       [Effect.deleteItem iid (.str s)]) := by
  have hmem : d0 ∈ queryByField store "location_id" (.str s) := by
    rw [hq]; exact List.mem_cons_self d0 rest
  have hd0 : docField d0 "location_id" = some (.str s) := (queryByField_mem hmem).2
  simp [delete_location, delete_core, sparamsGet, truthy, hs, hq, pyStr,
    jget_of_docField hiid, jget_of_docField hd0, ebind_ok, epure_ok]

theorem queryByField_after_delete (store : List Json) (s : String) (d0 iid : Json)
    (hq : queryByField store "location_id" (.str s) = [d0])
    (hiid : docField d0 "id" = some iid) :
    queryByField (applyEffect store (Effect.deleteItem iid (.str s)))
      "location_id" (.str s) = [] := by
  have hmem : d0 ∈ queryByField store "location_id" (.str s) := by
    rw [hq]; exact List.mem_cons_self d0 []
  have hd0 : docField d0 "location_id" = some (.str s) := (queryByField_mem hmem).2
  rw [applyEffect, queryByField, List.filter_eq_nil_iff]
  intro d hd
  obtain ⟨hds, hpred⟩ := List.mem_filter.mp hd
  simp only [decide_eq_true_eq] at hpred ⊢
  intro hcontra
  have hdeq : d = d0 := queryByField_singleton hq d hds hcontra
  subst hdeq
  exact hpred ⟨hiid, hd0⟩

/-- C5: delete_location returns 400 on a missing location_id (absent
query parameter or body field); 404 with no store call when no document
matches; and on a match it calls delete_item with the matched document's
internal id and its location_id partition key, returning 200.  With a
unique matching document, deleting the same location_id twice yields 200
then 404, and the store after the second call equals the store after the
first. -/
theorem c5_delete (store : List Json) (params : List (String × String)) (bkvs : JObj)
    (s : String) (d0 : Json) (rest : List Json) (iid : Json) :
    (sparamsGet params "location_id" = none →
      delete_location ⟨"GET", params, none⟩ store =
        (resp400 "Missing \x27location_id\x27 parameter", [])) ∧
    (jlookup bkvs "location_id" = none →
      delete_location ⟨"POST", [], some (.obj bkvs)⟩ store =
        (resp400 "Missing \x27location_id\x27 parameter", [])) ∧
    (s ≠ "" → queryByField store "location_id" (.str s) = [] →
      delete_location ⟨"GET", [("location_id", s)], none⟩ store =
        (resp404 ("Location \x27" ++ s ++ "\x27 not found"), [])) ∧
    (s ≠ "" → queryByField store "location_id" (.str s) = d0 :: rest →
      docField d0 "id" = some iid →
      delete_location ⟨"GET", [("location_id", s)], none⟩ store =
        (⟨200, Json.obj [("message",
            Json.str ("Location \x27" ++ s ++ "\x27 deleted successfully."))]⟩,
         [Effect.deleteItem iid (.str s)])) ∧
    (s ≠ "" → queryByField store "location_id" (.str s) = [d0] →
      docField d0 "id" = some iid →
      (delete_location ⟨"GET", [("location_id", s)], none⟩ store).1.status_code = 200 ∧
      (delete_location ⟨"GET", [("location_id", s)], none⟩
        (applyEffects store
          (delete_location ⟨"GET", [("location_id", s)], none⟩ store).2)).1.status_code = 404 ∧
      (delete_location ⟨"GET", [("location_id", s)], none⟩
        (applyEffects store
          (delete_location ⟨"GET", [("location_id", s)], none⟩ store).2)).2 = [] ∧
      applyEffects
        (applyEffects store (delete_location ⟨"GET", [("location_id", s)], none⟩ store).2)
        (delete_location ⟨"GET", [("location_id", s)], none⟩
          (applyEffects store
            (delete_location ⟨"GET", [("location_id", s)], none⟩ store).2)).2 =
        applyEffects store (delete_location ⟨"GET", [("location_id", s)], none⟩ store).2) := by
  refine ⟨?_, ?_, ?_, ?_, ?_⟩
  · intro h
    simp [delete_location, delete_core, h, truthy, HttpReq.getJson, ebind_ok, epure_ok]
  · intro h
    simp [delete_location, delete_core, h, truthy, HttpReq.getJson, jdictGet,
      ebind_ok, epure_ok]
  · intro hs hq
    exact delete_notfound store s hs hq
  · intro hs hq hiid
    exact delete_found store s d0 rest iid hs hq hiid
  · intro hs hq hiid
    have h1 := delete_found store s d0 [] iid hs hq hiid
    have hstore2 : applyEffects store
        (delete_location ⟨"GET", [("location_id", s)], none⟩ store).2 =
        applyEffect store (Effect.deleteItem iid (.str s)) := by
      rw [h1]
      rfl
    have hq2 := queryByField_after_delete store s d0 iid hq hiid
    have h2 := delete_notfound (applyEffect store (Effect.deleteItem iid (.str s))) s hs hq2
    rw [hstore2, h1, h2]
    exact ⟨rfl, rfl, rfl, rfl⟩

/-- Witness for C5 at a concrete store and requests. -/
theorem c5_witness :
    delete_location ⟨"GET", [], none⟩ cStoreA =
      (resp400 "Missing \x27location_id\x27 parameter", []) ∧
    delete_location ⟨"GET", [("location_id", "zz")], none⟩ cStoreA =
      (resp404 ("Location \x27" ++ "zz" ++ "\x27 not found"), []) ∧
    delete_location ⟨"GET", [("location_id", "L9")], none⟩ cStoreA =
      (⟨200, Json.obj [("message",
          Json.str ("Location \x27" ++ "L9" ++ "\x27 deleted successfully."))]⟩,
       [Effect.deleteItem (.str "i9") (.str "L9")]) ∧
    (delete_location ⟨"GET", [("location_id", "L9")], none⟩
      (applyEffects cStoreA
        (delete_location ⟨"GET", [("location_id", "L9")], none⟩ cStoreA).2)).1.status_code =
      404 := by
  obtain ⟨p1, _, p3, p4, p5⟩ := c5_delete cStoreA [] [] "zz" cDocA [] (.str "i9")
  obtain ⟨_, _, _, q4, q5⟩ := c5_delete cStoreA [] [] "L9" cDocA [] (.str "i9")
  exact ⟨p1 rfl, p3 (by decide) (by decide),
    q4 (by decide) (by decide) (by decide),
    (q5 (by decide) (by decide) (by decide)).2.1⟩

/-- Counterexample to C4 as stated: the empty string is a supplied
location_id (the GET query parameter is present) matching no stored
document, yet get_location returns 200 with the full collection instead
of 404, because the handler tests the identifier for truthiness. -/
theorem c4_counterexample :
    (∀ d ∈ cStoreA, docField d "location_id" ≠ some (.str "")) ∧
    get_location ⟨"GET", [("location_id", "")], none⟩ cStoreA =
      (⟨200, Json.obj [("locations", Json.arr cStoreA)]⟩, []) := by
  exact ⟨by decide, by decide⟩

/-- C4 amended: get_location with no location_id supplied (absent query
parameter for GET, absent body field for POST) returns 200 with every
stored document under `locations`; a supplied truthy location_id (for
GET, any non-empty string) matching no stored document returns 404; a
falsy one — such as the empty string — is treated as absent; and a
truthy location_id with a match returns 200 with the first matching
document under `location`. -/
theorem c4_amended (store : List Json) (params : List (String × String)) (bkvs : JObj)
    (s : String) (lid d0 : Json) (rest : List Json) :
    (sparamsGet params "location_id" = none →
      get_location ⟨"GET", params, none⟩ store =
        (⟨200, Json.obj [("locations", Json.arr store)]⟩, [])) ∧
    (jlookup bkvs "location_id" = none →
      get_location ⟨"POST", [], some (.obj bkvs)⟩ store =
        (⟨200, Json.obj [("locations", Json.arr store)]⟩, [])) ∧
    (s ≠ "" → queryByField store "location_id" (.str s) = [] →
      get_location ⟨"GET", [("location_id", s)], none⟩ store =
        (resp404 ("Location \x27" ++ s ++ "\x27 not found."), [])) ∧
    (truthy lid = true → queryByField store "location_id" lid = [] →
      get_location ⟨"POST", [], some (.obj [("location_id", lid)])⟩ store =
        (resp404 ("Location \x27" ++ pyStr lid ++ "\x27 not found."), [])) ∧
    (s ≠ "" → queryByField store "location_id" (.str s) = d0 :: rest →
      get_location ⟨"GET", [("location_id", s)], none⟩ store =
        (⟨200, Json.obj [("location", d0)]⟩, [])) ∧
    (truthy lid = true → queryByField store "location_id" lid = d0 :: rest →
      get_location ⟨"POST", [], some (.obj [("location_id", lid)])⟩ store =
        (⟨200, Json.obj [("location", d0)]⟩, [])) := by
  refine ⟨?_, ?_, ?_, ?_, ?_, ?_⟩
  · intro h
    by_cases hp : params = []
    · subst hp
      simp [get_location, get_core, truthy, ebind_ok, epure_ok]
    · simp [get_location, get_core, truthy, hp, h, ebind_ok, epure_ok]
  · intro h
    cases bkvs with
    | nil => simp [get_location, get_core, truthy, jdictGet, jlookup, ebind_ok, epure_ok,
        HttpReq.getJson]
    | cons kv rest2 =>
        simp [get_location, get_core, truthy, jdictGet, h, ebind_ok, epure_ok,
          HttpReq.getJson]
  · intro hs hq
    simp [get_location, get_core, sparamsGet, truthy, hs, hq, pyStr, ebind_ok, epure_ok]
  · intro ht hq
    have hb : truthy (Json.obj [("location_id", lid)]) = true := by simp [truthy]
    simp [get_location, get_core, jdictGet, hb, ht, hq, ebind_ok, epure_ok,
      HttpReq.getJson, jlookup]
  · intro hs hq
    simp [get_location, get_core, sparamsGet, truthy, hs, hq, ebind_ok, epure_ok]
  · intro ht hq
    have hb : truthy (Json.obj [("location_id", lid)]) = true := by simp [truthy]
    simp [get_location, get_core, jdictGet, hb, ht, hq, ebind_ok, epure_ok,
      HttpReq.getJson, jlookup]

/-- Witness for C4 (amended) at a concrete store and requests. -/
theorem c4_witness :
    get_location ⟨"GET", [], none⟩ cStoreA =
      (⟨200, Json.obj [("locations", Json.arr cStoreA)]⟩, []) ∧
    get_location ⟨"POST", [], some (.obj [("x", .num 1)])⟩ cStoreA =
      (⟨200, Json.obj [("locations", Json.arr cStoreA)]⟩, []) ∧
    get_location ⟨"GET", [("location_id", "zz")], none⟩ cStoreA =
      (resp404 ("Location \x27" ++ "zz" ++ "\x27 not found."), []) ∧
    get_location ⟨"POST", [], some (.obj [("location_id", .str "zz")])⟩ cStoreA =
      (resp404 ("Location \x27" ++ pyStr (.str "zz") ++ "\x27 not found."), []) ∧
    get_location ⟨"GET", [("location_id", "L9")], none⟩ cStoreA =
      (⟨200, Json.obj [("location", cDocA)]⟩, []) ∧
    get_location ⟨"POST", [], some (.obj [("location_id", .str "L9")])⟩ cStoreA =
      (⟨200, Json.obj [("location", cDocA)]⟩, []) := by
  obtain ⟨p1, p2, _, _, _, _⟩ := c4_amended cStoreA [] [("x", .num 1)] "zz" (.str "zz") cDocA []
  obtain ⟨_, _, q3, q4, _, _⟩ := c4_amended cStoreA [] [("x", .num 1)] "zz" (.str "zz") cDocA []
  obtain ⟨_, _, _, _, r5, r6⟩ := c4_amended cStoreA [] [("x", .num 1)] "L9" (.str "L9") cDocA []
  exact ⟨p1 rfl, p2 rfl, q3 (by decide) (by decide), q4 (by decide) (by decide),
    r5 (by decide) (by decide), r6 (by decide) (by decide)⟩

/-- C7: every successful Edit (status 200) persists, via its single
replace_item call, exactly the first stored document matching the body's
location_id with precisely those keys of
{location_id, location_name, events_ids, rooms} present in the request
body overwritten by the body's values; every other stored field is kept
and every other request field is ignored.  The same document is returned
under key `location`. -/
theorem c7_edit_merge (store : List Json) (schema : Schema) (bkvs : JObj)
    (h200 : (edit_location ⟨"POST", [], some (.obj bkvs)⟩ store schema).1.status_code = 200) :
    ∃ lid dkvs rest mkvs,
      jlookup bkvs "location_id" = some lid ∧
      queryByField store "location_id" lid = Json.obj dkvs :: rest ∧
      (edit_location ⟨"POST", [], some (.obj bkvs)⟩ store schema).2 =
        [Effect.replaceItem (.obj mkvs)] ∧
      (edit_location ⟨"POST", [], some (.obj bkvs)⟩ store schema).1.body =
        Json.obj [("message",
            Json.str ("Location \x27" ++ pyStr lid ++ "\x27 updated successfully.")),
          ("location", .obj mkvs)] ∧
      (∀ x, jlookup mkvs x =
        if x ∈ updatable_keys ∧ jhasKey bkvs x = true then jlookup bkvs x
        else jlookup dkvs x) := by
  cases bkvs with
  | nil =>
      simp [edit_location, edit_core, HttpReq.getJson, truthy, resp400,
        ebind_ok, epure_ok] at h200
  | cons kv brest =>
      have hb : truthy (Json.obj (kv :: brest)) = true := by simp [truthy]
      cases hl : jlookup (kv :: brest) "location_id" with
      | none =>
          simp [edit_location, edit_core, HttpReq.getJson, jdictGet, hb, isDict, truthy,
            hl, resp400, ebind_ok, epure_ok] at h200
      | some lid =>
          cases htl : truthy lid with
          | false =>
              simp [edit_location, edit_core, HttpReq.getJson, jdictGet, hb, isDict,
                hl, htl, resp400, ebind_ok, epure_ok] at h200
          | true =>
              cases hq : queryByField store "location_id" lid with
              | nil =>
                  simp [edit_location, edit_core, HttpReq.getJson, jdictGet, hb, isDict,
                    hl, htl, hq, resp404, ebind_ok, epure_ok] at h200
              | cons d0 rest =>
                  have hmem : d0 ∈ queryByField store "location_id" lid := by
                    rw [hq]; exact List.mem_cons_self d0 rest
                  obtain ⟨dkvs, rfl, _⟩ := docField_obj_of_some (queryByField_mem hmem).2
                  obtain ⟨mkvs, hmrun, hmchar⟩ :=
                    mergeUpdatable_ok (kv :: brest) updatable_keys dkvs false
                  have hupd : (updatable_keys.any (fun k => jhasKey (kv :: brest) k)) = true := by
                    have hk0 : jhasKey (kv :: brest) "location_id" = true := by
                      simp [jhasKey, hl]
                    simp [updatable_keys, hk0]
                  rw [hupd] at hmrun
                  cases hv : schema.validate (.obj mkvs) with
                  | false =>
                      simp [edit_location, edit_core, HttpReq.getJson, jdictGet, hb, isDict,
                        hl, htl, hq, hmrun, hv, resp400, ebind_ok, epure_ok] at h200
                  | true =>
                      refine ⟨lid, dkvs, rest, mkvs, rfl, hq, ?_, ?_, hmchar⟩
                      · simp [edit_location, edit_core, HttpReq.getJson, jdictGet, hb,
                          isDict, hl, htl, hq, hmrun, hv, ebind_ok, epure_ok]
                      · simp [edit_location, edit_core, HttpReq.getJson, jdictGet, hb,
                          isDict, hl, htl, hq, hmrun, hv, ebind_ok, epure_ok]

/-- Witness for C7: an Edit supplying only location_id and events_ids
succeeds and persists the stored document with only events_ids changed. -/
theorem c7_witness :
    ∃ lid dkvs rest mkvs,
      jlookup [("location_id", Json.str "L9"), ("events_ids", Json.arr [])]
        "location_id" = some lid ∧
      queryByField cStoreA "location_id" lid = Json.obj dkvs :: rest ∧
      (edit_location ⟨"POST", [], some (.obj [("location_id", Json.str "L9"),
          ("events_ids", Json.arr [])])⟩ cStoreA cSchema).2 =
        [Effect.replaceItem (.obj mkvs)] ∧
      (edit_location ⟨"POST", [], some (.obj [("location_id", Json.str "L9"),
          ("events_ids", Json.arr [])])⟩ cStoreA cSchema).1.body =
        Json.obj [("message",
            Json.str ("Location \x27" ++ pyStr lid ++ "\x27 updated successfully.")),
          ("location", .obj mkvs)] ∧
      (∀ x, jlookup mkvs x =
        if x ∈ updatable_keys ∧
            jhasKey [("location_id", Json.str "L9"), ("events_ids", Json.arr [])] x = true
        then jlookup [("location_id", Json.str "L9"), ("events_ids", Json.arr [])] x
        else jlookup dkvs x) :=
  c7_edit_merge cStoreA cSchema
    [("location_id", Json.str "L9"), ("events_ids", Json.arr [])] (by decide)

/-- C2: a Create whose body carries the mandatory fields (location_name,
rooms, and events_ids, which the stored-document construction reads),
whose rooms are objects with room_name and capacity, whose location_name
matches no stored document, and which the schema accepts, returns 202
with the freshly generated location_id; afterwards exactly one stored
document carries that location_id, and its rooms carry pairwise distinct
freshly generated room_ids. -/
theorem c2_create_success (store : List Json) (schema : Schema) (fresh : Nat → String)
    (bkvs : JObj) (name ev : Json) (rl : List Json)
    (hinj : Function.Injective fresh)
    (hfresh : ∀ (n : Nat), ∀ d ∈ store, docField d "location_id" ≠ some (.str (fresh n)))
    (h1 : jlookup bkvs "location_name" = some name)
    (h2 : jlookup bkvs "rooms" = some (.arr rl))
    (hev : jlookup bkvs "events_ids" = some ev)
    (hrooms : ∀ r ∈ rl, isDict r = true ∧
      jmem r "room_name" = .ok true ∧ jmem r "capacity" = .ok true)
    (hdup : queryByField store "location_name" name = [])
    (hval : schema.validate (.obj bkvs) = true) :
    (create_location ⟨"POST", [], some (.obj bkvs)⟩ store schema fresh).1.status_code = 202 ∧
    docField (create_location ⟨"POST", [], some (.obj bkvs)⟩ store schema fresh).1.body
      "location_id" = some (.str (fresh 0)) ∧
    ∃ nd rooms2,
      (create_location ⟨"POST", [], some (.obj bkvs)⟩ store schema fresh).2 =
        [Effect.createItem nd] ∧
      applyEffects store (create_location ⟨"POST", [], some (.obj bkvs)⟩ store schema fresh).2 =
        store ++ [nd] ∧
      docField nd "location_id" = some (.str (fresh 0)) ∧
      ((store ++ [nd]).filter
        (fun d => decide (docField d "location_id" = some (.str (fresh 0))))).length = 1 ∧
      docField nd "rooms" = some (.arr rooms2) ∧
      rooms2.length = rl.length ∧
      (∀ (i : Nat) (hi : i < rooms2.length),
        docField rooms2[i] "room_id" = some (.str (fresh (1 + i)))) ∧
      (rooms2.map (fun r => docField r "room_id")).Nodup := by
  have hrfm : roomFieldMissing rl = .ok false :=
    roomFieldMissing_false rl (fun r hr => ⟨(hrooms r hr).2.1, (hrooms r hr).2.2⟩)
  obtain ⟨rooms2, hg, hglen, hgchar⟩ :=
    genRoomIds_ok fresh rl 1 (fun r hr => (hrooms r hr).1)
  have hrun : create_location ⟨"POST", [], some (.obj bkvs)⟩ store schema fresh =
      (⟨202, Json.obj [("message", Json.str "Location created successfully."),
          ("location_id", Json.str (fresh 0))]⟩,
       [Effect.createItem (Json.obj (addExtras schema.properties
          [("id", Json.str (fresh (1 + rl.length))),
           ("location_id", Json.str (fresh 0)),
           ("location_name", name),
           ("events_ids", ev),
           ("rooms", Json.arr rooms2)] bkvs))]) := by
    simp [create_location, create_core, missingFields, HttpReq.getJson, jmem, jhasKey,
      h1, h2, jget, jiter, hrfm, hdup, hval, hg, hev, jitems, ebind_ok, epure_ok]
  have hnd0 : jlookup (addExtras schema.properties
      [("id", Json.str (fresh (1 + rl.length))),
       ("location_id", Json.str (fresh 0)),
       ("location_name", name),
       ("events_ids", ev),
       ("rooms", Json.arr rooms2)] bkvs) "location_id" = some (.str (fresh 0)) := by
    rw [addExtras_preserves schema.properties bkvs _ "location_id" (by simp [jhasKey, jlookup])]
    simp [jlookup]
  have hndr : jlookup (addExtras schema.properties
      [("id", Json.str (fresh (1 + rl.length))),
       ("location_id", Json.str (fresh 0)),
       ("location_name", name),
       ("events_ids", ev),
       ("rooms", Json.arr rooms2)] bkvs) "rooms" = some (.arr rooms2) := by
    rw [addExtras_preserves schema.properties bkvs _ "rooms" (by simp [jhasKey, jlookup])]
    simp [jlookup]
  rw [hrun]
  refine ⟨rfl, by simp [docField, jlookup], _, rooms2, rfl, by simp [applyEffects, applyEffect],
    by simp [docField, hnd0], ?_, by simp [docField, hndr], hglen,
    (fun i hi => by simpa using hgchar i hi), ?_⟩
  · rw [List.filter_append]
    have hnil : store.filter
        (fun d => decide (docField d "location_id" = some (.str (fresh 0)))) = [] := by
      rw [List.filter_eq_nil_iff]
      intro d hd
      simp only [decide_eq_true_eq]
      exact hfresh 0 d hd
    rw [hnil]
    simp [docField, hnd0]
  · have hmap : rooms2.map (fun r => docField r "room_id") =
        (List.range rooms2.length).map (fun i => some (Json.str (fresh (1 + i)))) := by
      apply List.ext_getElem (by simp)
      intro i hi1 hi2
      simp only [List.getElem_map, List.getElem_range]
      exact hgchar i (by simpa using hi1)
    rw [hmap]
    apply List.Nodup.map ?_ (List.nodup_range rooms2.length)
    intro a b hab
    have := hinj (Json.str.inj (Option.some.inj hab))
    omega

/-- Witness for C2: the scenario Create of "Hall A" with one room on an
empty store, with the concrete injective UUID supply. -/
theorem c2_witness :
    (create_location ⟨"POST", [], some (.obj [("location_name", .str "Hall A"),
        ("events_ids", .arr []), ("rooms", .arr [.obj [("room_name", .str "R1"),
        ("capacity", .num 50)]])])⟩ [] cSchema cFresh).1.status_code = 202 ∧
    docField (create_location ⟨"POST", [], some (.obj [("location_name", .str "Hall A"),
        ("events_ids", .arr []), ("rooms", .arr [.obj [("room_name", .str "R1"),
        ("capacity", .num 50)]])])⟩ [] cSchema cFresh).1.body
      "location_id" = some (Json.str (cFresh 0)) ∧
    ∃ nd rooms2,
      (create_location ⟨"POST", [], some (.obj [("location_name", .str "Hall A"),
          ("events_ids", .arr []), ("rooms", .arr [.obj [("room_name", .str "R1"),
          ("capacity", .num 50)]])])⟩ [] cSchema cFresh).2 = [Effect.createItem nd] ∧
      applyEffects []
        (create_location ⟨"POST", [], some (.obj [("location_name", .str "Hall A"),
          ("events_ids", .arr []), ("rooms", .arr [.obj [("room_name", .str "R1"),
          ("capacity", .num 50)]])])⟩ [] cSchema cFresh).2 = [] ++ [nd] ∧
      docField nd "location_id" = some (Json.str (cFresh 0)) ∧
      (([] ++ [nd]).filter
        (fun d => decide (docField d "location_id" = some (Json.str (cFresh 0))))).length = 1 ∧
      docField nd "rooms" = some (.arr rooms2) ∧
      rooms2.length = 1 ∧
      (∀ (i : Nat) (hi : i < rooms2.length),
        docField rooms2[i] "room_id" = some (Json.str (cFresh (1 + i)))) ∧
      (rooms2.map (fun r => docField r "room_id")).Nodup :=
  c2_create_success [] cSchema cFresh
    [("location_name", .str "Hall A"), ("events_ids", .arr []),
     ("rooms", .arr [.obj [("room_name", .str "R1"), ("capacity", .num 50)]])]
    (.str "Hall A") (.arr []) [.obj [("room_name", .str "R1"), ("capacity", .num 50)]]
    cFresh_injective (by simp) rfl rfl rfl (by decide) rfl rfl

theorem ebind_def {α β : Type} (x : Except PyErr α) (f : α → Except PyErr β) :
    (x >>= f) = match x with
      | .ok a => f a
      | .error e => .error e := by
  cases x <;> rfl

theorem create_effects (req : HttpReq) (store : List Json) (schema : Schema)
    (fresh : Nat → String) :
    (create_location req store schema fresh).2.length ≤ 1 ∧
    ((create_location req store schema fresh).1.status_code ≠ 202 →
      (create_location req store schema fresh).2 = []) := by
  unfold create_location
  cases hc : create_core schema fresh store req with
  | error e => simp
  | ok r =>
      unfold create_core at hc
      simp only [ebind_def, HttpReq.getJson] at hc
      repeat' split at hc
      all_goals
        first
        | simp at hc
        | (rw [epure_ok] at hc; injection hc with h; subst h; simp)

theorem delete_effects (req : HttpReq) (store : List Json) :
    (delete_location req store).2.length ≤ 1 ∧
    ((delete_location req store).1.status_code ≠ 200 →
      (delete_location req store).2 = []) := by
  unfold delete_location
  cases hc : delete_core store req with
  | error e => simp
  | ok r =>
      unfold delete_core at hc
      simp only [ebind_def, HttpReq.getJson] at hc
      repeat' split at hc
      all_goals
        first
        | simp at hc
        | (rw [epure_ok] at hc; injection hc with h; subst h; simp)

theorem get_effects (req : HttpReq) (store : List Json) :
    (get_location req store).2 = [] := by
  unfold get_location
  cases hc : get_core store req with
  | error e => simp
  | ok r =>
      unfold get_core at hc
      simp only [ebind_def, HttpReq.getJson] at hc
      repeat' split at hc
      all_goals
        first
        | simp at hc
        | (rw [epure_ok] at hc; injection hc with h; subst h; simp)

theorem edit_effects (req : HttpReq) (store : List Json) (schema : Schema) :
    (edit_location req store schema).2.length ≤ 1 ∧
    ((edit_location req store schema).1.status_code ≠ 200 →
      (edit_location req store schema).2 = []) := by
  unfold edit_location
  cases hc : edit_core schema store req with
  | error e => simp
  | ok r =>
      unfold edit_core at hc
      simp only [ebind_def, HttpReq.getJson] at hc
      repeat' split at hc
      all_goals
        first
        | simp at hc
        | (rw [epure_ok] at hc; injection hc with h; subst h; simp)

/-- C8: on every request and store state each handler issues at most one
mutating container call, and whenever a handler returns a status other
than its success code (202 for Create, 200 for Delete and Edit; Get
never mutates), no mutating call was issued, so the store state is
unchanged. -/
theorem c8_single_write (req : HttpReq) (store : List Json) (schema : Schema)
    (fresh : Nat → String) :
    ((create_location req store schema fresh).2.length ≤ 1 ∧
      ((create_location req store schema fresh).1.status_code ≠ 202 →
        applyEffects store (create_location req store schema fresh).2 = store)) ∧
    ((delete_location req store).2.length ≤ 1 ∧
      ((delete_location req store).1.status_code ≠ 200 →
        applyEffects store (delete_location req store).2 = store)) ∧
    ((get_location req store).2 = [] ∧
      applyEffects store (get_location req store).2 = store) ∧
    ((edit_location req store schema).2.length ≤ 1 ∧
      ((edit_location req store schema).1.status_code ≠ 200 →
        applyEffects store (edit_location req store schema).2 = store)) := by
  obtain ⟨hc1, hc2⟩ := create_effects req store schema fresh
  obtain ⟨hd1, hd2⟩ := delete_effects req store
  have hg := get_effects req store
  obtain ⟨he1, he2⟩ := edit_effects req store schema
  refine ⟨⟨hc1, fun h => ?_⟩, ⟨hd1, fun h => ?_⟩, ⟨hg, ?_⟩, ⟨he1, fun h => ?_⟩⟩
  · rw [hc2 h]; rfl
  · rw [hd2 h]; rfl
  · rw [hg]; rfl
  · rw [he2 h]; rfl

/-- Witness for C8 at a concrete failing request (no JSON body: Create,
Edit 500; Delete, Get fall back to the absent query parameter). -/
theorem c8_witness :
    ((create_location ⟨"POST", [], none⟩ cStoreA cSchema cFresh).2.length ≤ 1 ∧
      applyEffects cStoreA (create_location ⟨"POST", [], none⟩ cStoreA cSchema cFresh).2 =
        cStoreA) ∧
    ((delete_location ⟨"GET", [], none⟩ cStoreA).2.length ≤ 1 ∧
      applyEffects cStoreA (delete_location ⟨"GET", [], none⟩ cStoreA).2 = cStoreA) ∧
    ((get_location ⟨"GET", [], none⟩ cStoreA).2 = [] ∧
      applyEffects cStoreA (get_location ⟨"GET", [], none⟩ cStoreA).2 = cStoreA) ∧
    ((edit_location ⟨"POST", [], none⟩ cStoreA cSchema).2.length ≤ 1 ∧
      applyEffects cStoreA (edit_location ⟨"POST", [], none⟩ cStoreA cSchema).2 = cStoreA) := by
  obtain ⟨⟨w1, w2⟩, ⟨w3, w4⟩, ⟨w5, w6⟩, ⟨w7, w8⟩⟩ :=
    c8_single_write ⟨"POST", [], none⟩ cStoreA cSchema cFresh
  obtain ⟨⟨_, _⟩, ⟨v3, v4⟩, ⟨v5, v6⟩, ⟨_, _⟩⟩ :=
    c8_single_write ⟨"GET", [], none⟩ cStoreA cSchema cFresh
  exact ⟨⟨w1, w2 (by decide)⟩, ⟨v3, v4 (by decide)⟩, ⟨v5, v6⟩, ⟨w7, w8 (by decide)⟩⟩

/-- Witness for C9 at a concrete body lacking `events_ids`. -/
theorem c9_witness :
    create_location ⟨"POST", [], some (.obj [("location_name", .str "X"),
        ("rooms", .arr [.obj [("room_name", .str "R1"), ("capacity", .num 50)]])])⟩
      [] cSchema cFresh =
      (⟨500, Json.obj [("error", Json.str "Internal Server Error")]⟩, []) :=
  c9_missing_events_ids [] cSchema cFresh _ _ _
    [.obj [("room_name", .str "R1"), ("capacity", .num 50)]]
    rfl rfl rfl rfl rfl rfl rfl

end LocationCrud
